import Mathlib

/-!
Shallow embedding of `src/assistant.py` (Cute Voice Assistant): the command
dispatcher `handle_command`, the presentation poll step `check_text_queue`,
the task persistence `save_tasks`, the listening controls `toggle_listen` /
`stop_listen`, and the recognizer worker `stt_worker`.

External capabilities (screenshot capture, browser launch, speech synthesis,
dialogs, transcript widget) are represented as explicit effect values; machine
state (task list, awaiting flag, listening flag) is passed explicitly.
-/

namespace Assistant

/-- Boolean prefix test on character lists (building block for Python's
substring operator `in`). -/
def listPrefixOf : List Char → List Char → Bool
  | [], _ => true
  | _ :: _, [] => false
  | a :: as, b :: bs => a == b && listPrefixOf as bs

/-- Boolean substring containment on character lists. -/
def listContainsSub (pat : List Char) : List Char → Bool
  | [] => pat.isEmpty
  | c :: rest => listPrefixOf pat (c :: rest) || listContainsSub pat rest

/-- Python's `pat in s` substring containment test. -/
def strContains (s pat : String) : Bool :=
  listContainsSub pat.data s.data

/-- Python's `s.startswith(pre)`. -/
def strStartsWith (s pre : String) : Bool :=
  listPrefixOf pre.data s.data

/-- ASCII case folding of one character, as Python's `str.lower()` acts on the
ASCII command vocabulary this program matches against. -/
def charLower (c : Char) : Char :=
  if 65 ≤ c.toNat ∧ c.toNat ≤ 90 then Char.ofNat (c.toNat + 32) else c

/-- Python's `cmd.lower()` (ASCII range; all table patterns are ASCII). -/
def strLower (s : String) : String :=
  String.mk (s.data.map charLower)

/-- ASCII whitespace recognized by Python's default `str.strip()`. -/
def isSpaceChar (c : Char) : Bool :=
  c == ' ' || c == '\t' || c == '\n' || c == '\r' || c == '\x0b' || c == '\x0c'

/-- Python's `txt.strip()`: drop leading and trailing whitespace. -/
def pyStrip (s : String) : String :=
  String.mk (((s.data.dropWhile isSpaceChar).reverse.dropWhile isSpaceChar).reverse)

/-- Wall-clock reading used by the `time` command (`datetime.datetime.now()`),
restricted to the fields `strftime('%I:%M %p')` reads. -/
structure ClockTime where
  hour : Nat
  minute : Nat
deriving Repr, DecidableEq

/-- Zero-padded two-digit decimal rendering, as `strftime` uses for
`%I` and `%M`. -/
def pad2 (n : Nat) : String :=
  if n < 10 then "0" ++ toString n else toString n

/-- Models `datetime.datetime.now().strftime('%I:%M %p')`: 12-hour clock,
zero-padded hour and minute, AM for hours 0-11 and PM for hours 12-23. -/
def formatTime12 (t : ClockTime) : String :=
  pad2 ((t.hour + 11) % 12 + 1) ++ ":" ++ pad2 t.minute ++ " " ++
    (if t.hour < 12 then "AM" else "PM")

/-- Ambient inputs `handle_command` reads from the machine: current working
directory (`os.getcwd()`), `int(time.time())`, and the wall clock. -/
structure Env where
  cwd : String
  unixSeconds : Nat
  now : ClockTime
deriving Repr, DecidableEq

/-- OS-level side effects a dispatch can trigger. -/
inductive OsAction where
  | screenshot (path : String)
  | openUrl (url : String)
deriving Repr, DecidableEq

/-- The dispatcher result state returned by `handle_command`:
`'awaiting_task'`, `'done'` or `'exit'`. -/
inductive DispatchResult where
  | awaitingTask
  | done
  | exit
deriving Repr, DecidableEq

/-- Observable outcome of one `handle_command` call: transcript lines appended
through `gui_append_fn` (in order), strings passed to `speak` (in order),
OS actions performed, and the returned state tag. -/
structure Effects where
  displayed : List String
  spoken : List String
  actions : List OsAction
  result : DispatchResult
deriving Repr, DecidableEq

/-- The screenshot file path
`os.path.join(os.getcwd(), f'screenshot_{int(time.time())}.png')`
(POSIX separator). -/
def screenshotPath (env : Env) : String :=
  env.cwd ++ "/screenshot_" ++ toString env.unixSeconds ++ ".png"

/-- Embedding of `handle_command(cmd, gui_append_fn)` from `src/assistant.py`
(lines 110-158). The global `tasks` list is passed explicitly; it is only
read, never written, by this function. -/
def handle_command (cmd : String) (tasks : List String) (env : Env) : Effects :=
  let cmd := strLower cmd
  let youLine := "You: " ++ cmd ++ "\n"
  if strContains cmd "add task" || strStartsWith cmd "add" then
    { displayed := [youLine, "Assistant: What is the task?\n"]
      spoken := ["What is the task?"]
      actions := []
      result := .awaitingTask }
  else if strContains cmd "list tasks" || strContains cmd "show tasks" then
    if tasks ≠ [] then
      { displayed := youLine :: tasks.map (fun t => "Assistant: " ++ t ++ "\n")
        spoken := tasks
        actions := []
        result := .done }
    else
      { displayed := [youLine, "Assistant: You have no tasks.\n"]
        spoken := ["You have no tasks."]
        actions := []
        result := .done }
  else if strContains cmd "screenshot" || strContains cmd "take a screenshot" then
    { displayed := [youLine, "Assistant: Screenshot saved to " ++ screenshotPath env ++ "\n"]
      spoken := ["Screenshot taken for you."]
      actions := [.screenshot (screenshotPath env)]
      result := .done }
  else if strContains cmd "open chrome" || strContains cmd "open browser" then
    { displayed := [youLine, "Assistant: Opening browser.\n"]
      spoken := ["Opening browser"]
      actions := [.openUrl "https://www.google.com"]
      result := .done }
  else if strContains cmd "time" || strContains cmd "what\x27s the time" ||
      strContains cmd "current time" then
    { displayed := [youLine, "Assistant: The time is " ++ formatTime12 env.now ++ "\n"]
      spoken := ["The time is " ++ formatTime12 env.now]
      actions := []
      result := .done }
  else if strContains cmd "exit" || strContains cmd "quit" || strContains cmd "goodbye" then
    { displayed := [youLine, "Assistant: Goodbye!\n"]
      spoken := ["Goodbye"]
      actions := []
      result := .exit }
  else
    { displayed := [youLine, "Assistant: I didn\x27t understand that. Try again.\n"]
      spoken := ["I didn\x27t understand that. Try again."]
      actions := []
      result := .done }

/-- A modal dialog raised through `tkinter.messagebox`. -/
inductive Dialog where
  | info (title msg : String)
  | error (title msg : String)
deriving Repr, DecidableEq

/-- The file content `save_tasks` writes: one task per line, each line
terminated by `'\n'` (`f.write(t + '\n')` for each stored task, in order). -/
def serializeTasks (tasks : List String) : String :=
  String.join (tasks.map (fun t => t ++ "\n"))

/-- The fixed filename `save_tasks` opens in the working directory. -/
def tasksFileName : String := "tasks.txt"

/-- Split a character sequence at every `'\n'` (each newline terminates a
line), keeping the trailing empty segment; used to state the one-task-per-line
layout of the saved file. -/
def splitOnNL : List Char → List (List Char)
  | [] => [[]]
  | c :: rest =>
    match splitOnNL rest with
    | [] => [[]]
    | l :: ls => if c = '\n' then [] :: l :: ls else (c :: l) :: ls

/-- Embedding of `CuteAssistantGUI.save_tasks` (lines 237-244).
`writeResult` is the outcome of the file-system write of
`serializeTasks tasks` to `tasks.txt`: `.ok` if it succeeded, `.error e` if
`open`/`write` raised with message `e`. Returns the dialog shown and the
in-memory task list after the call. -/
def save_tasks (tasks : List String) (writeResult : Except String Unit) :
    Dialog × List String :=
  match writeResult with
  | .ok _ => (.info "Saved" "Tasks saved to tasks.txt", tasks)
  | .error e => (.error "Error" e, tasks)

/-- Mutable machine state shared by the GUI: the module-level `tasks` list,
`self.awaiting_task`, and the `listening_flag` event. -/
structure AppState where
  tasks : List String
  awaiting_task : Bool
  listening : Bool
deriving Repr, DecidableEq

/-- Embedding of `CuteAssistantGUI.stop_listen` (lines 232-235): clears the
listening flag (button relabel and transcript line are widget-only). -/
def stop_listen (s : AppState) : AppState :=
  { s with listening := false }

/-- Embedding of `CuteAssistantGUI.toggle_listen` (lines 221-230),
parameterized by whether `vosk_model` loaded at startup (lines 66-69).
Returns the new state and the dialog raised, if any. -/
def toggle_listen (model_loaded : Bool) (s : AppState) : AppState × Option Dialog :=
  if !model_loaded then
    (s, some (.error "Model missing" "VOSK model not found. Put model folder next to script."))
  else if s.listening then
    (stop_listen s, none)
  else
    ({ s with listening := true }, none)

/-- One finalized step of `stt_worker` (lines 82-100) after `audio_q.get()`:
`accepted` is the value of `recognizer.AcceptWaveform(data)`, `text` the
`'text'` field of `recognizer.Result()`. Returns the strings pushed to
`text_q` by this step (partial results — `accepted = false` — push nothing;
a finalized result is stripped and pushed only if non-empty). -/
def stt_worker_step (accepted : Bool) (text : String) : List String :=
  if accepted then
    let txt := pyStrip text
    if txt ≠ "" then [txt] else []
  else []

/-- Effects of one drained item in `CuteAssistantGUI.check_text_queue`
(lines 246-265), bundling the state update with the observable output. -/
structure StepOut where
  state : AppState
  displayed : List String
  spoken : List String
  actions : List OsAction
  exitRequested : Bool
deriving Repr, DecidableEq

/-- Embedding of the body of the `while not text_q.empty()` loop in
`check_text_queue` for one dequeued utterance `txt`: when
`self.awaiting_task` is set the utterance is appended verbatim as a task and
the flag cleared; otherwise it is dispatched through `handle_command`, and
`'awaiting_task'` / `'exit'` results update the flag / request `on_close`. -/
def check_text_queue (txt : String) (env : Env) (s : AppState) : StepOut :=
  if s.awaiting_task then
    { state := { s with tasks := s.tasks ++ [txt], awaiting_task := false }
      displayed := ["Assistant: Added task: " ++ txt ++ "\n"]
      spoken := ["Task added"]
      actions := []
      exitRequested := false }
  else
    let eff := handle_command txt s.tasks env
    { state := { s with awaiting_task := eff.result = .awaitingTask }
      displayed := eff.displayed
      spoken := eff.spoken
      actions := eff.actions
      exitRequested := eff.result = .exit }

/-- A user- or recognizer-driven operation on the running application. -/
inductive UiOp where
  | toggle
  | stop
  | save (writeResult : Except String Unit)
  | utter (txt : String) (env : Env)

/-- State transition of a single operation (dialogs and transcript output
dropped). -/
def applyUiOp (model_loaded : Bool) (op : UiOp) (s : AppState) : AppState :=
  match op with
  | .toggle => (toggle_listen model_loaded s).1
  | .stop => stop_listen s
  | .save wr => { s with tasks := (save_tasks s.tasks wr).2 }
  | .utter txt env => (check_text_queue txt env s).state

/-- Run a sequence of operations left to right. -/
def runUiOps (model_loaded : Bool) (ops : List UiOp) (s : AppState) : AppState :=
  ops.foldl (fun st op => applyUiOp model_loaded op st) s

/-- The rows of the command table, in the order the spec lists them. -/
inductive CommandKind where
  | addTask
  | listTasks
  | takeScreenshot
  | openBrowser
  | tellTime
  | exitApp
deriving Repr, DecidableEq

/-- Modelled from the spec: the pattern set of each table row, matched
case-insensitively by substring containment (plus the starts-with-add
alternative of the first row) against the lowercased utterance. -/
def kindMatches (k : CommandKind) (cmd : String) : Bool :=
  match k with
  | .addTask => strContains cmd "add task" || strStartsWith cmd "add"
  | .listTasks => strContains cmd "list tasks" || strContains cmd "show tasks"
  | .takeScreenshot => strContains cmd "screenshot" || strContains cmd "take a screenshot"
  | .openBrowser => strContains cmd "open chrome" || strContains cmd "open browser"
  | .tellTime =>
      strContains cmd "time" || strContains cmd "what\x27s the time" ||
        strContains cmd "current time"
  | .exitApp => strContains cmd "exit" || strContains cmd "quit" || strContains cmd "goodbye"

/-- Modelled from the spec: the fixed table order
add-task, list-tasks, screenshot, open-browser, time, exit. -/
def commandTable : List CommandKind :=
  [.addTask, .listTasks, .takeScreenshot, .openBrowser, .tellTime, .exitApp]

/-- Modelled from the spec: ordered, first-match-wins lookup of the
lowercased utterance in the fixed table. -/
def firstMatch (cmd : String) : Option CommandKind :=
  commandTable.find? (fun k => kindMatches k cmd)

/-- Modelled from the spec: the effect of one table row (or of the
not-understood fallback, for `none`) on an already-lowercased utterance. -/
def kindEffect (k : Option CommandKind) (cmd : String) (tasks : List String)
    (env : Env) : Effects :=
  let youLine := "You: " ++ cmd ++ "\n"
  match k with
  | some .addTask =>
      { displayed := [youLine, "Assistant: What is the task?\n"]
        spoken := ["What is the task?"]
        actions := []
        result := .awaitingTask }
  | some .listTasks =>
      if tasks ≠ [] then
        { displayed := youLine :: tasks.map (fun t => "Assistant: " ++ t ++ "\n")
          spoken := tasks
          actions := []
          result := .done }
      else
        { displayed := [youLine, "Assistant: You have no tasks.\n"]
          spoken := ["You have no tasks."]
          actions := []
          result := .done }
  | some .takeScreenshot =>
      { displayed := [youLine, "Assistant: Screenshot saved to " ++ screenshotPath env ++ "\n"]
        spoken := ["Screenshot taken for you."]
        actions := [.screenshot (screenshotPath env)]
        result := .done }
  | some .openBrowser =>
      { displayed := [youLine, "Assistant: Opening browser.\n"]
        spoken := ["Opening browser"]
        actions := [.openUrl "https://www.google.com"]
        result := .done }
  | some .tellTime =>
      { displayed := [youLine, "Assistant: The time is " ++ formatTime12 env.now ++ "\n"]
        spoken := ["The time is " ++ formatTime12 env.now]
        actions := []
        result := .done }
  | some .exitApp =>
      { displayed := [youLine, "Assistant: Goodbye!\n"]
        spoken := ["Goodbye"]
        actions := []
        result := .exit }
  | none =>
      { displayed := [youLine, "Assistant: I didn\x27t understand that. Try again.\n"]
        spoken := ["I didn\x27t understand that. Try again."]
        actions := []
        result := .done }

end Assistant

namespace Assistant

/-- C1: while the dispatcher is awaiting a task description, every utterance is
appended verbatim (original casing, unmodified) at the end of the task store,
a confirmation is displayed and spoken, the flag resets to idle, and the
command table is bypassed: the step's entire output is the fixed
add-confirmation for every utterance — including ones matching command
patterns such as `exit` or `time` — and never performs an action or requests
exit. -/
theorem awaiting_fill_verbatim (s : AppState) (txt : String) (env : Env)
    (h : s.awaiting_task = true) :
    check_text_queue txt env s =
      { state := { tasks := s.tasks ++ [txt], awaiting_task := false, listening := s.listening }
        displayed := ["Assistant: Added task: " ++ txt ++ "\n"]
        spoken := ["Task added"]
        actions := []
        exitRequested := false } := by
  simp [check_text_queue, h]

/-- Witness for C1 at the utterance `"exit"`: it is stored verbatim as a task
instead of triggering the exit command. -/
theorem awaiting_fill_verbatim_witness :
    (AppState.mk ["old"] true false).awaiting_task = true ∧
    check_text_queue "exit" ⟨"", 0, ⟨14, 5⟩⟩ (AppState.mk ["old"] true false) =
      { state := AppState.mk ["old", "exit"] false false
        displayed := ["Assistant: Added task: exit\n"]
        spoken := ["Task added"]
        actions := []
        exitRequested := false } :=
  ⟨rfl, awaiting_fill_verbatim (AppState.mk ["old"] true false) "exit" ⟨"", 0, ⟨14, 5⟩⟩ rfl⟩

/-- C4: a list-tasks utterance (one matching the list row and not the earlier
add row) on an empty store displays exactly the one no-tasks line and zero
per-task lines; on the store `[t1, t2]` it displays exactly the two per-task
lines in insertion order, speaking each stored task in order. -/
theorem list_tasks_lines (cmd t1 t2 : String) (env : Env)
    (hna : strContains (strLower cmd) "add task" = false)
    (hnb : strStartsWith (strLower cmd) "add" = false)
    (hl : strContains (strLower cmd) "list tasks" = true ∨
      strContains (strLower cmd) "show tasks" = true) :
    (handle_command cmd [] env).displayed =
      ["You: " ++ strLower cmd ++ "\n", "Assistant: You have no tasks.\n"] ∧
    (handle_command cmd [] env).spoken = ["You have no tasks."] ∧
    (handle_command cmd [t1, t2] env).displayed =
      ["You: " ++ strLower cmd ++ "\n", "Assistant: " ++ t1 ++ "\n",
        "Assistant: " ++ t2 ++ "\n"] ∧
    (handle_command cmd [t1, t2] env).spoken = [t1, t2] := by
  rcases hl with hl | hl <;>
    refine ⟨?_, ?_, ?_, ?_⟩ <;> simp [handle_command, hna, hnb, hl]

/-- Witness for C4 at `"list tasks"` with tasks `"T1"`, `"T2"`. -/
theorem list_tasks_lines_witness :
    (strContains (strLower "list tasks") "add task" = false ∧
      strStartsWith (strLower "list tasks") "add" = false ∧
      strContains (strLower "list tasks") "list tasks" = true) ∧
    (handle_command "list tasks" [] ⟨"", 0, ⟨9, 30⟩⟩).displayed =
      ["You: list tasks\n", "Assistant: You have no tasks.\n"] ∧
    (handle_command "list tasks" [] ⟨"", 0, ⟨9, 30⟩⟩).spoken = ["You have no tasks."] ∧
    (handle_command "list tasks" ["T1", "T2"] ⟨"", 0, ⟨9, 30⟩⟩).displayed =
      ["You: list tasks\n", "Assistant: T1\n", "Assistant: T2\n"] ∧
    (handle_command "list tasks" ["T1", "T2"] ⟨"", 0, ⟨9, 30⟩⟩).spoken = ["T1", "T2"] :=
  ⟨⟨by decide, by decide, by decide⟩,
    list_tasks_lines "list tasks" "T1" "T2" ⟨"", 0, ⟨9, 30⟩⟩
      (by decide) (by decide) (Or.inl (by decide))⟩

/-- C6: `save_tasks` shows an error dialog when the file write raises and an
info dialog when it succeeds, and in both cases leaves the in-memory task
list exactly as it was. -/
theorem save_tasks_error_dialog (tasks : List String) (e : String) :
    (save_tasks tasks (.error e)).1 = .error "Error" e ∧
    (save_tasks tasks (.error e)).2 = tasks ∧
    (save_tasks tasks (.ok ())).1 = .info "Saved" "Tasks saved to tasks.txt" ∧
    (save_tasks tasks (.ok ())).2 = tasks :=
  ⟨rfl, rfl, rfl, rfl⟩

/-- C8: the recognizer worker step never emits an empty utterance — every
string pushed to the text queue is the stripped finalized text and is
non-empty; a partial result (`accepted = false`) pushes nothing, and a
finalized result that strips to empty (in particular one that is all
whitespace) is discarded. -/
theorem stt_no_empty_emit (accepted : Bool) (text : String) :
    (∀ t ∈ stt_worker_step accepted text, t = pyStrip text ∧ t ≠ "") ∧
    stt_worker_step false text = [] ∧
    (pyStrip text = "" → stt_worker_step accepted text = []) ∧
    ((∀ c ∈ text.data, isSpaceChar c = true) → stt_worker_step accepted text = []) := by
  refine ⟨?_, rfl, ?_, ?_⟩
  · intro t ht
    cases accepted <;> simp [stt_worker_step] at ht
    rcases ht with ⟨hne, he⟩
    exact ⟨he, by rw [he]; exact hne⟩
  · intro h
    cases accepted <;> simp [stt_worker_step, h]
  · intro h
    have hd : text.data.dropWhile isSpaceChar = [] :=
      List.dropWhile_eq_nil_iff.mpr h
    have hs : pyStrip text = "" := by
      simp [pyStrip, hd]
    cases accepted <;> simp [stt_worker_step, hs]

/-- Witness for C8: a whitespace-padded result is emitted stripped and
non-empty, while an all-whitespace finalized result and a partial result are
discarded. -/
theorem stt_no_empty_emit_witness :
    stt_worker_step false "exit" = [] ∧
    stt_worker_step true " \t  " = [] ∧
    ("hi" = pyStrip "  hi  " ∧ "hi" ≠ "") :=
  ⟨(stt_no_empty_emit false "exit").2.1,
    (stt_no_empty_emit true " \t  ").2.2.1 (by decide),
    (stt_no_empty_emit true "  hi  ").1 "hi" (by decide)⟩

/-- C3: an utterance whose lowercasing contains `"time"` and matches none of
the four earlier table rows produces exactly the formatted 12-hour time
response, displayed and spoken, with result done; and the formatter renders
the clock reading 14:05 as `"02:05 PM"`. -/
theorem time_dispatch (cmd : String) (tasks : List String) (env : Env)
    (ht : strContains (strLower cmd) "time" = true)
    (h1 : strContains (strLower cmd) "add task" = false)
    (h2 : strStartsWith (strLower cmd) "add" = false)
    (h3 : strContains (strLower cmd) "list tasks" = false)
    (h4 : strContains (strLower cmd) "show tasks" = false)
    (h5 : strContains (strLower cmd) "screenshot" = false)
    (h6 : strContains (strLower cmd) "take a screenshot" = false)
    (h7 : strContains (strLower cmd) "open chrome" = false)
    (h8 : strContains (strLower cmd) "open browser" = false) :
    handle_command cmd tasks env =
      { displayed := ["You: " ++ strLower cmd ++ "\n",
          "Assistant: The time is " ++ formatTime12 env.now ++ "\n"]
        spoken := ["The time is " ++ formatTime12 env.now]
        actions := []
        result := .done } ∧
    formatTime12 ⟨14, 5⟩ = "02:05 PM" := by
  refine ⟨?_, by decide⟩
  simp [handle_command, ht, h1, h2, h3, h4, h5, h6, h7, h8]

/-- Witness for C3 at the utterance `"what is the time"` and clock 14:05. -/
theorem time_dispatch_witness :
    handle_command "what is the time" [] ⟨"/w", 0, ⟨14, 5⟩⟩ =
      { displayed := ["You: " ++ strLower "what is the time" ++ "\n",
          "Assistant: The time is " ++ formatTime12 ⟨14, 5⟩ ++ "\n"]
        spoken := ["The time is " ++ formatTime12 ⟨14, 5⟩]
        actions := []
        result := .done } ∧
    formatTime12 ⟨14, 5⟩ = "02:05 PM" :=
  time_dispatch "what is the time" [] ⟨"/w", 0, ⟨14, 5⟩⟩ (by decide) (by decide)
    (by decide) (by decide) (by decide) (by decide) (by decide) (by decide) (by decide)

/-- With the model absent, no single operation can turn the listening flag
on. -/
theorem applyUiOp_listening_model_missing (op : UiOp) (s : AppState)
    (h : s.listening = false) : (applyUiOp false op s).listening = false := by
  cases op with
  | toggle => simp [applyUiOp, toggle_listen, h]
  | stop => simp [applyUiOp, stop_listen]
  | save wr => cases wr <;> simp [applyUiOp, save_tasks, h]
  | utter txt env =>
      by_cases ha : s.awaiting_task = true <;>
        simp [applyUiOp, check_text_queue, ha, h]

/-- C7: when the recognition model failed to load, `toggle_listen` leaves the
state untouched and raises the model-missing error dialog instead of setting
the listening flag; moreover no sequence of UI operations can ever set the
listening flag while the model is absent. -/
theorem model_missing_no_listen (s : AppState) (ops : List UiOp)
    (h : s.listening = false) :
    (toggle_listen false s).1 = s ∧
    (toggle_listen false s).2 =
      some (.error "Model missing" "VOSK model not found. Put model folder next to script.") ∧
    (runUiOps false ops s).listening = false := by
  refine ⟨by simp [toggle_listen], by simp [toggle_listen], ?_⟩
  induction ops generalizing s with
  | nil => exact h
  | cons op rest ih =>
      exact ih (applyUiOp false op s) (applyUiOp_listening_model_missing op s h)

/-- Witness for C7: starting idle with the model missing, a toggle, an
utterance, another toggle and a stop leave the listening flag off, and the
first toggle changes nothing but raises the error dialog. -/
theorem model_missing_no_listen_witness :
    (toggle_listen false (AppState.mk [] false false)).1 = AppState.mk [] false false ∧
    (runUiOps false
        [UiOp.toggle, UiOp.utter "hello" ⟨"", 0, ⟨1, 2⟩⟩, UiOp.toggle, UiOp.stop]
        (AppState.mk [] false false)).listening = false :=
  ⟨(model_missing_no_listen (AppState.mk [] false false) [] rfl).1,
    (model_missing_no_listen (AppState.mk [] false false)
      [UiOp.toggle, UiOp.utter "hello" ⟨"", 0, ⟨1, 2⟩⟩, UiOp.toggle, UiOp.stop] rfl).2.2⟩

/-- Any single operation only ever appends to the task store. -/
theorem applyUiOp_tasks_extend (ml : Bool) (op : UiOp) (s : AppState) :
    ∃ ext, (applyUiOp ml op s).tasks = s.tasks ++ ext := by
  cases op with
  | toggle =>
      refine ⟨[], ?_⟩
      cases ml <;> by_cases hb : s.listening = true <;>
        simp [applyUiOp, toggle_listen, stop_listen, hb]
  | stop => exact ⟨[], by simp [applyUiOp, stop_listen]⟩
  | save wr =>
      refine ⟨[], ?_⟩
      cases wr <;> simp [applyUiOp, save_tasks]
  | utter txt env =>
      by_cases ha : s.awaiting_task = true
      · exact ⟨[txt], by simp [applyUiOp, check_text_queue, ha]⟩
      · exact ⟨[], by simp [applyUiOp, check_text_queue, ha]⟩

/-- Any sequence of operations only ever appends to the task store. -/
theorem runUiOps_tasks_extend (ml : Bool) (ops : List UiOp) (s : AppState) :
    ∃ ext, (runUiOps ml ops s).tasks = s.tasks ++ ext := by
  induction ops generalizing s with
  | nil => exact ⟨[], by simp [runUiOps]⟩
  | cons op rest ih =>
      obtain ⟨e1, h1⟩ := applyUiOp_tasks_extend ml op s
      obtain ⟨e2, h2⟩ := ih (applyUiOp ml op s)
      refine ⟨e1 ++ e2, ?_⟩
      have : runUiOps ml (op :: rest) s = runUiOps ml rest (applyUiOp ml op s) := rfl
      rw [this, h2, h1, List.append_assoc]

/-- C10: dispatching an utterance in the idle state leaves the task store
exactly as it was (no command table branch appends, removes or reorders
tasks), and across arbitrary sequences of operations the store is
append-only: the old store is always a prefix of the new one. -/
theorem dispatch_never_mutates_tasks (s : AppState) (txt : String) (env : Env)
    (ml : Bool) (ops : List UiOp) :
    (s.awaiting_task = false → (check_text_queue txt env s).state.tasks = s.tasks) ∧
    (∃ ext, (runUiOps ml ops s).tasks = s.tasks ++ ext) := by
  constructor
  · intro h
    simp [check_text_queue, h]
  · exact runUiOps_tasks_extend ml ops s

/-- Witness for C10: an idle screenshot dispatch leaves the store `["a"]`
unchanged, and a two-utterance add-task interaction only extends it. -/
theorem dispatch_never_mutates_tasks_witness :
    (check_text_queue "take a screenshot" ⟨"/w", 7, ⟨3, 4⟩⟩
      (AppState.mk ["a"] false false)).state.tasks = ["a"] ∧
    (∃ ext, (runUiOps true
        [UiOp.utter "add task" ⟨"", 0, ⟨1, 1⟩⟩, UiOp.utter "buy milk" ⟨"", 0, ⟨1, 1⟩⟩]
        (AppState.mk ["a"] false false)).tasks = ["a"] ++ ext) :=
  ⟨(dispatch_never_mutates_tasks (AppState.mk ["a"] false false) "take a screenshot"
      ⟨"/w", 7, ⟨3, 4⟩⟩ true []).1 rfl,
    (dispatch_never_mutates_tasks (AppState.mk ["a"] false false) "x" ⟨"", 0, ⟨1, 1⟩⟩ true
      [UiOp.utter "add task" ⟨"", 0, ⟨1, 1⟩⟩, UiOp.utter "buy milk" ⟨"", 0, ⟨1, 1⟩⟩]).2⟩

/-- Folding string concatenation collects the character data in order. -/
theorem string_foldl_append_data (l : List String) (acc : String) :
    (l.foldl (fun r s => r ++ s) acc).data = acc.data ++ (l.map String.data).flatten := by
  induction l generalizing acc with
  | nil => simp
  | cons a as ih => simp [List.foldl, ih, String.data_append]

/-- The saved file content, character by character. -/
theorem serializeTasks_data (tasks : List String) :
    (serializeTasks tasks).data = (tasks.map (fun t => t.data ++ ['\n'])).flatten := by
  unfold serializeTasks String.join
  rw [string_foldl_append_data]
  have hf : (String.data ∘ fun t => t ++ "\n") = fun t : String => t.data ++ ['\n'] :=
    funext fun t => by simp [Function.comp, String.data_append]
  simp [List.map_map, hf]

/-- Unfolding one saved task at the head of the file. -/
theorem serializeTasks_cons (t : String) (ts : List String) :
    (serializeTasks (t :: ts)).data = t.data ++ '\n' :: (serializeTasks ts).data := by
  simp [serializeTasks_data]

/-- Splitting on newlines always yields at least one segment. -/
theorem splitOnNL_ne_nil (s : List Char) : splitOnNL s ≠ [] := by
  induction s with
  | nil => simp [splitOnNL]
  | cons c rest ih =>
      cases h : splitOnNL rest with
      | nil => exact absurd h ih
      | cons l ls =>
          simp only [splitOnNL, h]
          split <;> simp

/-- A newline-free segment followed by a newline is one full line of the
split. -/
theorem splitOnNL_line (l rest : List Char) (hl : '\n' ∉ l) :
    splitOnNL (l ++ '\n' :: rest) = l :: splitOnNL rest := by
  induction l with
  | nil =>
      simp only [List.nil_append, splitOnNL]
      cases h : splitOnNL rest with
      | nil => exact absurd h (splitOnNL_ne_nil rest)
      | cons a as => simp
  | cons c cs ih =>
      have hc : c ≠ '\n' := fun e => hl (e ▸ List.mem_cons_self c cs)
      have hcs : '\n' ∉ cs := fun hx => hl (List.mem_cons_of_mem c hx)
      have key : splitOnNL ((c :: cs) ++ '\n' :: rest) =
          match splitOnNL (cs ++ '\n' :: rest) with
          | [] => [[]]
          | l :: ls => if c = '\n' then [] :: l :: ls else (c :: l) :: ls := rfl
      rw [key, ih hcs]
      simp [hc]

/-- The saved file splits on newlines into exactly the stored tasks in order,
plus the empty segment after the final terminator. -/
theorem splitOnNL_serializeTasks (tasks : List String)
    (h : ∀ t ∈ tasks, '\n' ∉ t.data) :
    splitOnNL (serializeTasks tasks).data = tasks.map String.data ++ [[]] := by
  induction tasks with
  | nil => rfl
  | cons t ts ih =>
      rw [serializeTasks_cons, splitOnNL_line _ _ (h t (List.mem_cons_self t ts))]
      simp [ih (fun x hx => h x (List.mem_cons_of_mem t hx))]

/-- C5: the save operation writes to the fixed filename `tasks.txt`; the
written content is one task per line, each line newline-terminated, in store
order (splitting the content on newlines recovers exactly the tasks plus the
empty trailing segment); and saving is idempotent — the store is unchanged by
a save, so an immediate second save serializes the identical content. -/
theorem save_tasks_serialization (tasks : List String)
    (h : ∀ t ∈ tasks, '\n' ∉ t.data) :
    tasksFileName = "tasks.txt" ∧
    splitOnNL (serializeTasks tasks).data = tasks.map String.data ++ [[]] ∧
    serializeTasks ((save_tasks tasks (.ok ())).2) = serializeTasks tasks :=
  ⟨rfl, splitOnNL_serializeTasks tasks h, rfl⟩

/-- Witness for C5 on the store `["buy milk", "call mom"]`. -/
theorem save_tasks_serialization_witness :
    splitOnNL (serializeTasks ["buy milk", "call mom"]).data =
      ["buy milk", "call mom"].map String.data ++ [[]] :=
  (save_tasks_serialization ["buy milk", "call mom"] (by decide)).2.1

/-- C2: dispatch in the idle state is exactly first-match-wins lookup in the
fixed ordered table (add-task, list-tasks, screenshot, open-browser, time,
exit) by case-insensitive containment: for every utterance, `handle_command`
produces precisely the effect of the first matching row, and the fixed
not-understood response when no row matches. -/
theorem handle_command_first_match (cmd : String) (tasks : List String) (env : Env) :
    handle_command cmd tasks env =
      kindEffect (firstMatch (strLower cmd)) (strLower cmd) tasks env := by
  cases h1 : strContains (strLower cmd) "add task" || strStartsWith (strLower cmd) "add" with
  | true =>
      simp [handle_command, kindEffect, firstMatch, commandTable, kindMatches, List.find?, h1]
  | false =>
  cases h2 : strContains (strLower cmd) "list tasks" ||
      strContains (strLower cmd) "show tasks" with
  | true =>
      simp [handle_command, kindEffect, firstMatch, commandTable, kindMatches, List.find?,
        h1, h2]
  | false =>
  cases h3 : strContains (strLower cmd) "screenshot" ||
      strContains (strLower cmd) "take a screenshot" with
  | true =>
      simp [handle_command, kindEffect, firstMatch, commandTable, kindMatches, List.find?,
        h1, h2, h3]
  | false =>
  cases h4 : strContains (strLower cmd) "open chrome" ||
      strContains (strLower cmd) "open browser" with
  | true =>
      simp [handle_command, kindEffect, firstMatch, commandTable, kindMatches, List.find?,
        h1, h2, h3, h4]
  | false =>
  cases h5 : strContains (strLower cmd) "time" ||
      strContains (strLower cmd) "what\x27s the time" ||
      strContains (strLower cmd) "current time" with
  | true =>
      simp [handle_command, kindEffect, firstMatch, commandTable, kindMatches, List.find?,
        h1, h2, h3, h4, h5]
  | false =>
  cases h6 : strContains (strLower cmd) "exit" || strContains (strLower cmd) "quit" ||
      strContains (strLower cmd) "goodbye" with
  | true =>
      simp [handle_command, kindEffect, firstMatch, commandTable, kindMatches, List.find?,
        h1, h2, h3, h4, h5, h6]
  | false =>
      simp [handle_command, kindEffect, firstMatch, commandTable, kindMatches, List.find?,
        h1, h2, h3, h4, h5, h6]

/-- C9: toggling listening on and then immediately stopping, with no utterance
processed in between, leaves the task store and the awaiting-task flag
exactly as they were; each of `toggle_listen` and `stop_listen` alone also
leaves both untouched, whether or not the model loaded. -/
theorem toggle_stop_frame (model_loaded : Bool) (s : AppState) :
    (stop_listen (toggle_listen model_loaded s).1).tasks = s.tasks ∧
    (stop_listen (toggle_listen model_loaded s).1).awaiting_task = s.awaiting_task ∧
    (toggle_listen model_loaded s).1.tasks = s.tasks ∧
    (toggle_listen model_loaded s).1.awaiting_task = s.awaiting_task ∧
    (stop_listen s).tasks = s.tasks ∧
    (stop_listen s).awaiting_task = s.awaiting_task := by
  cases model_loaded <;> cases hb : s.listening <;>
    simp [toggle_listen, stop_listen, hb]

end Assistant
